import Mathlib

/-!
Verification of `cmd/run.go` of optimism-rosetta: the `run` subcommand's
supervisor (`runRunCmd`), its final-outcome policy, the HTTP server
lifecycle tasks, and the `getSupportedTokens` allow-list table.

Go values are embedded shallowly: `error` values become an inductive `Err`
(with `none : Option Err` standing for Go's `nil` error), `time.Duration`
becomes a count of nanoseconds as `Nat`, and a `map[string]bool` literal
becomes its (distinct-key) entry list. External calls whose results drive
`runRunCmd`'s control flow (configuration loading, asserter construction,
client construction, the task group's wait, the signal flag) are supplied
through an environment record, and `runRunCmd` is translated as a function
from that environment to a trace of its observable effects.
-/

namespace OptimismRosetta

/-- Embedded Go `error` values. `Err.halted` is `errors.New("rosetta-ethereum halted")`;
`Err.serverClosed` is `http.ErrServerClosed`; `Err.contextCanceled` is
`context.Canceled`; `Err.external tag` is an arbitrary error produced by an
external collaborator; `Err.wrap msg e` is `fmt.Errorf("%w: msg", e)`. -/
inductive Err where
  | halted
  | serverClosed
  | contextCanceled
  | external (tag : String)
  | wrap (msg : String) (e : Err)
deriving DecidableEq, Repr

/-- Modelled from the spec: `optimism.MainnetNetwork`, the recognized
production network name, a constant of the `optimism` package that is not
under `src/` (the spec calls it "a production network"). Only its
distinctness from the testnet name matters to the claims, not the string. -/
def MainnetNetwork : String := "mainnet"

/-- Modelled from the spec: `optimism.TestnetNetwork`, the recognized test
network name ("Goerli - 420" per the source comment), a constant of the
`optimism` package that is not under `src/`. -/
def TestnetNetwork : String := "goerli"

/-- The OP token address, the network's native wrapped-token address. -/
def OPTokenAddress : String := "0x4200000000000000000000000000000000000042"

/-- `getSupportedTokens` from `cmd/run.go`: a fixed allow-list of contract
addresses per network name. The Go `switch` over distinct string constants
is an if-chain; each `map[string]bool` literal is its entry list. -/
def getSupportedTokens (network : String) : List (String × Bool) :=
  if network = MainnetNetwork then
    [(OPTokenAddress, true),
     ("0xda10009cbd5d07dd0cecc66161fc93d7c9000da1", true),
     ("0x8700daec35af8ff88c16bdf0418774cb3d7599b4", true),
     ("0x94b008aa00579c1307b0ef2c499ad98a8ce58e58", true),
     ("0x68f180fcce6836688e9084f035309e29bf0a2095", true),
     ("0x7f5c764cbc14f9669b88837ca1490cca17c31607", true)]
  else if network = TestnetNetwork then
    [(OPTokenAddress, true),
     ("0xda10009cbd5d07dd0cecc66161fc93d7c9000da1", true),
     ("0x2e5ed97596a8368eb9e44b1f3f25b2e813845303", true),
     ("0x853eb4ba5d0ba2b77a0a5329fd2110d5ce149ece", true),
     ("0xe0a592353e81a94db6e3226fd4a99f881751776a", true),
     ("0x7e07e15d2a87a24492740d16f5bdf58c16db0c4e", true)]
  else
    [(OPTokenAddress, true)]

/-- One nanosecond count per Go `time.Second`. -/
def second : Nat := 1000000000

/-- `readTimeout` constant of `cmd/run.go`: `5 * time.Second`. -/
def readTimeout : Nat := 5 * second

/-- `idleTimeout` constant of `cmd/run.go`: `30 * time.Second`. -/
def idleTimeout : Nat := 30 * second

/-- `configuration.Mode`: the online/offline mode flag of the configuration. -/
inductive Mode where
  | online
  | offline
deriving DecidableEq, Repr

/-- The fields of `configuration.Configuration` read by `runRunCmd`.
`network` is `cfg.Network.Network` (the network name string);
`l2GethHTTPTimeout` is `cfg.L2GethHTTPTimeout` in nanoseconds. -/
structure Configuration where
  mode : Mode
  remoteGeth : Bool
  network : String
  port : Nat
  l2GethHTTPTimeout : Nat
  gethURL : String
  gethArguments : String
  maxConcurrentTraces : Nat
  enableTraceCache : Bool
  enableGethTracer : Bool
deriving DecidableEq, Repr

/-- `optimism.ClientOptions` as built by `runRunCmd`. -/
structure ClientOptions where
  HTTPTimeout : Nat
  MaxTraceConcurrency : Nat
  EnableTraceCache : Bool
  EnableGethTracer : Bool
  SupportedTokens : List (String × Bool)
deriving DecidableEq, Repr

/-- The `http.Server` fields set by `runRunCmd` (timeouts in nanoseconds). -/
structure HTTPServer where
  Addr : String
  ReadTimeout : Nat
  WriteTimeout : Nat
  IdleTimeout : Nat
deriving DecidableEq, Repr

/-- The `http.Server` literal built by `runRunCmd`:
`Addr` is `fmt.Sprintf(":%d", cfg.Port)`, `ReadTimeout` and `IdleTimeout`
are the package constants, `WriteTimeout` is `cfg.L2GethHTTPTimeout`. -/
def mkServer (cfg : Configuration) : HTTPServer :=
  { Addr := ":" ++ toString cfg.port
  , ReadTimeout := readTimeout
  , WriteTimeout := cfg.l2GethHTTPTimeout
  , IdleTimeout := idleTimeout }

/-- The tasks `runRunCmd` can register with the `errgroup` via `g.Go`,
in registration order: the embedded-node launch task
(`optimism.StartGeth`), the serve task (`server.ListenAndServe`) and the
shutdown task (`<-ctx.Done(); server.Shutdown(ctx)`). -/
inductive TaskName where
  | startGeth
  | serve
  | shutdown
deriving DecidableEq, Repr

/-- Results of the external calls that drive `runRunCmd`'s control flow.
`loadConfiguration` is `configuration.LoadConfiguration()`;
`newServerAsserter` is `asserter.NewServer(...)`; `newClient` is
`optimism.NewClient(...)`; `joinResult` is the value `g.Wait()` returns
(Go `nil` is `none`); `signalReceived` is the value of the package-level
`SignalReceived` flag when it is read right after `g.Wait()` returns. -/
structure Env where
  loadConfiguration : Except Err Configuration
  newServerAsserter : Except Err Unit
  newClient : Except Err Unit
  joinResult : Option Err
  signalReceived : Bool
deriving Repr

/-- Observable trace of one `runRunCmd` run: the returned error (`none` is
Go `nil`), the tasks registered with the group before return (in
registration order), whether `optimism.NewClient` returned a client,
how many times `client.Close()` ran before return, the `ClientOptions`
built (if any), the `http.Server` built (if any), and whether the run
reached `g.Wait()`. -/
structure RunResult where
  result : Option Err
  tasks : List TaskName
  clientCreated : Bool
  clientCloses : Nat
  clientOptions : Option ClientOptions
  server : Option HTTPServer
  reachedJoin : Bool
deriving DecidableEq, Repr

/-- The tail of `runRunCmd` from the `services.NewBlockchainRouter` call on:
builds the `http.Server`, registers the serve and shutdown tasks, blocks on
`g.Wait()`, and then applies the final-outcome policy — `SignalReceived`
true yields the fresh `halted` error, otherwise the wait's error is
returned as is. The deferred `client.Close()` runs exactly once on this
return path when a client was created. -/
def runTail (cfg : Configuration) (env : Env) (clientCreated : Bool)
    (opts : Option ClientOptions) (tasks0 : List TaskName) : RunResult :=
  let server := mkServer cfg
  { result := if env.signalReceived then some Err.halted else env.joinResult
  , tasks := tasks0 ++ [TaskName.serve, TaskName.shutdown]
  , clientCreated := clientCreated
  , clientCloses := if clientCreated then 1 else 0
  , clientOptions := opts
  , server := some server
  , reachedJoin := true }

/-- `runRunCmd` from `cmd/run.go` as a function of its environment.
Fatal paths return the wrapped error immediately; in online mode the
embedded-node task is registered (unless `cfg.RemoteGeth`) before
`optimism.NewClient` is called, and `defer client.Close()` is installed
only after a successful client construction. -/
def runRunCmd (env : Env) : RunResult :=
  match env.loadConfiguration with
  | Except.error e =>
      { result := some (Err.wrap "unable to load configuration" e)
      , tasks := [], clientCreated := false, clientCloses := 0
      , clientOptions := none, server := none, reachedJoin := false }
  | Except.ok cfg =>
    match env.newServerAsserter with
    | Except.error e =>
        { result := some (Err.wrap "could not initialize server asserter" e)
        , tasks := [], clientCreated := false, clientCloses := 0
        , clientOptions := none, server := none, reachedJoin := false }
    | Except.ok _ =>
      match cfg.mode with
      | Mode.online =>
        let tasks0 := if cfg.remoteGeth then [] else [TaskName.startGeth]
        let opts : ClientOptions :=
          { HTTPTimeout := cfg.l2GethHTTPTimeout
          , MaxTraceConcurrency := cfg.maxConcurrentTraces
          , EnableTraceCache := cfg.enableTraceCache
          , EnableGethTracer := cfg.enableGethTracer
          , SupportedTokens := getSupportedTokens cfg.network }
        match env.newClient with
        | Except.error e =>
            { result := some (Err.wrap "cannot initialize ethereum client" e)
            , tasks := tasks0, clientCreated := false, clientCloses := 0
            , clientOptions := some opts, server := none, reachedJoin := false }
        | Except.ok _ => runTail cfg env true (some opts) tasks0
      | Mode.offline => runTail cfg env false none []

/-- What `http.Server.Shutdown(ctx)` reports back: whether it waited for
the in-flight requests to finish before returning, and the error it
returned. -/
structure ShutdownOutcome where
  drainedInFlight : Bool
  err : Option Err
deriving DecidableEq, Repr

/-- Model of the documented Go `net/http` contract of
`http.Server.Shutdown(ctx)` (an external collaborator): it stops accepting
new connections and closes the listeners, then waits for active
connections to become idle — but if the supplied context is done it
returns the context's error at once without waiting for in-flight
requests. With no active connection it returns `nil` immediately, before
ever consulting the context. `ctxDone` says whether the supplied context
is already done at the time of the call; `activeConns` counts in-flight
requests at that time. -/
def serverShutdown (ctxDone : Bool) (activeConns : Nat) : ShutdownOutcome :=
  if activeConns = 0 then { drainedInFlight := true, err := none }
  else if ctxDone then { drainedInFlight := false, err := some Err.contextCanceled }
  else { drainedInFlight := true, err := none }

/-- The shutdown task of `runRunCmd`: it first blocks on `<-ctx.Done()`,
so by the time it calls `server.Shutdown(ctx)` the context it passes in is
already done (contexts are one-shot: once done, always done). -/
def shutdownTask (activeConns : Nat) : ShutdownOutcome :=
  serverShutdown true activeConns

/-- How a `server.ListenAndServe()` call came to return: either the server
was closed by a `Shutdown`/`Close` call (here, by the paired shutdown
task), or binding/serving failed with an I/O error. -/
inductive ServeEnd where
  | closedByShutdown
  | ioError (e : Err)
deriving DecidableEq, Repr

/-- Model of the documented Go `net/http` contract of
`http.Server.ListenAndServe()` (an external collaborator): it returns the
non-nil `http.ErrServerClosed` after a `Shutdown` or `Close` call, and the
underlying error when binding or serving fails; it never returns `nil`. -/
def listenAndServe : ServeEnd → Option Err
  | ServeEnd.closedByShutdown => some Err.serverClosed
  | ServeEnd.ioError e => some e

/-- The serve task of `runRunCmd`: it returns `server.ListenAndServe()`
directly, with no filtering of `http.ErrServerClosed`. -/
def serveTask (e : ServeEnd) : Option Err :=
  listenAndServe e

/-- `errgroup.Group.Wait()` as a function of the task results listed in
completion order: the first non-nil error, or `nil` when every task
returned `nil`. -/
def errgroupFirstErr : List (Option Err) → Option Err
  | [] => none
  | none :: rest => errgroupFirstErr rest
  | some e :: _ => some e

/-- A concrete offline configuration, used as a fixture. -/
def cfgOffline : Configuration :=
  { mode := Mode.offline, remoteGeth := false, network := "mainnet"
  , port := 8080, l2GethHTTPTimeout := 120 * second
  , gethURL := "http://127.0.0.1:8545", gethArguments := ""
  , maxConcurrentTraces := 16, enableTraceCache := false
  , enableGethTracer := false }

/-- A concrete online configuration with an embedded geth node. -/
def cfgEmbedded : Configuration :=
  { cfgOffline with mode := Mode.online, remoteGeth := false }

/-- A concrete online configuration pointed at a remote geth endpoint. -/
def cfgRemote : Configuration :=
  { cfgOffline with mode := Mode.online, remoteGeth := true }

/-- Fixture: an offline run whose task group returned the serve task's
`http.ErrServerClosed` and in which a termination signal was received. -/
def envOfflineSignal : Env :=
  { loadConfiguration := Except.ok cfgOffline
  , newServerAsserter := Except.ok ()
  , newClient := Except.ok ()
  , joinResult := some Err.serverClosed
  , signalReceived := true }

/-- Fixture: an online embedded-geth run whose client construction fails. -/
def envClientFail : Env :=
  { loadConfiguration := Except.ok cfgEmbedded
  , newServerAsserter := Except.ok ()
  , newClient := Except.error (Err.external "dial error")
  , joinResult := none
  , signalReceived := false }

/-- Fixture: an online remote-geth run that completes without error. -/
def envRemoteOk : Env :=
  { loadConfiguration := Except.ok cfgRemote
  , newServerAsserter := Except.ok ()
  , newClient := Except.ok ()
  , joinResult := none
  , signalReceived := false }

/-- C1: for every run reaching `g.Wait()`, a true `SignalReceived` flag at
that point makes `runRunCmd` return the distinct non-nil halted error
regardless of the wait's own result, and a false flag makes it return
exactly the wait's aggregated error (possibly nil). -/
theorem runRunCmd_final_outcome_policy (env : Env)
    (h : (runRunCmd env).reachedJoin = true) :
    (env.signalReceived = true → (runRunCmd env).result = some Err.halted) ∧
    (env.signalReceived = false → (runRunCmd env).result = env.joinResult) := by
  obtain ⟨lc, na, nc, jr, sr⟩ := env
  cases lc with
  | error e => simp [runRunCmd] at h
  | ok cfg =>
    cases na with
    | error e => simp [runRunCmd] at h
    | ok u =>
      cases hm : cfg.mode with
      | online =>
        cases nc with
        | error e => simp [runRunCmd, hm] at h
        | ok v =>
          cases sr <;> simp [runRunCmd, runTail, hm]
      | offline =>
        cases sr <;> simp [runRunCmd, runTail, hm]

/-- Witness for C1 at the offline-signal fixture. -/
theorem runRunCmd_final_outcome_policy_witness :
    (runRunCmd envOfflineSignal).reachedJoin = true ∧
    (runRunCmd envOfflineSignal).result = some Err.halted :=
  ⟨rfl, (runRunCmd_final_outcome_policy envOfflineSignal rfl).1 rfl⟩

/-- C2 counterexample: with a single in-flight request at cancellation
time, the code's shutdown task does not wait for it at all — the context
it passes to `server.Shutdown` is the already-cancelled group context, so
`Shutdown` returns `context.Canceled` immediately instead of the claimed
best-effort drain with no deadline. -/
theorem shutdownTask_no_drain_counterexample :
    (shutdownTask 1).drainedInFlight = false ∧
    (shutdownTask 1).err = some Err.contextCanceled :=
  ⟨rfl, rfl⟩

/-- C2 amended: once cancellation triggers, the shutdown task calls
`server.Shutdown` with the already-cancelled group context, so with no
in-flight request it returns nil at once, and with any in-flight requests
it returns the context's cancellation error immediately without waiting
for them; either way it returns that result to the group. -/
theorem shutdownTask_behavior (n : Nat) :
    shutdownTask 0 = { drainedInFlight := true, err := none } ∧
    shutdownTask (n + 1) =
      { drainedInFlight := false, err := some Err.contextCanceled } := by
  refine ⟨rfl, ?_⟩
  simp [shutdownTask, serverShutdown]

/-- Witness for C2's amended statement at one in-flight request. -/
theorem shutdownTask_behavior_witness :
    shutdownTask 1 = { drainedInFlight := false, err := some Err.contextCanceled } :=
  (shutdownTask_behavior 0).2

/-- The task group's aggregated result in the offline-signal scenario,
with the serve task completing after being closed by the shutdown task
and the shutdown task completing over zero in-flight requests — in the
completion order serve-first. -/
def offlineSignalJoinServeFirst : Option Err :=
  errgroupFirstErr [serveTask ServeEnd.closedByShutdown, (shutdownTask 0).err]

/-- The same aggregated result in the completion order shutdown-first. -/
def offlineSignalJoinShutdownFirst : Option Err :=
  errgroupFirstErr [(shutdownTask 0).err, serveTask ServeEnd.closedByShutdown]

/-- C3 counterexample: in the offline run terminated by a signal, `join`
does not return nil — in either completion order it returns the serve
task's non-nil `http.ErrServerClosed`, because the serve task hands
`server.ListenAndServe()`'s sentinel error to the group unfiltered. -/
theorem offline_signal_join_not_nil :
    offlineSignalJoinServeFirst = some Err.serverClosed ∧
    offlineSignalJoinShutdownFirst = some Err.serverClosed ∧
    offlineSignalJoinServeFirst ≠ none :=
  ⟨rfl, rfl, by simp [offlineSignalJoinServeFirst, errgroupFirstErr, serveTask, listenAndServe]⟩

/-- C3 amended: in offline mode with a termination signal and no
in-flight request, the shutdown task completes cleanly but the serve task
returns the non-nil `http.ErrServerClosed`, so `join` returns that error
in either completion order; the signal flag is true and the final outcome
of `runRunCmd` is nonetheless the halted result, since the flag takes
priority. -/
theorem offline_signal_scenario :
    (shutdownTask 0).err = none ∧
    serveTask ServeEnd.closedByShutdown = some Err.serverClosed ∧
    offlineSignalJoinServeFirst = some Err.serverClosed ∧
    offlineSignalJoinShutdownFirst = some Err.serverClosed ∧
    envOfflineSignal.signalReceived = true ∧
    (runRunCmd envOfflineSignal).reachedJoin = true ∧
    (runRunCmd envOfflineSignal).result = some Err.halted :=
  ⟨rfl, rfl, rfl, rfl, rfl, rfl, rfl⟩

/-- C4 counterexample: when the server is closed by the paired shutdown
task, the serve task returns `server.ListenAndServe()` unfiltered, which
is the non-nil `http.ErrServerClosed` — so it does contribute a non-nil
error to the group on shutdown. -/
theorem serveTask_closed_nonnil_counterexample :
    serveTask ServeEnd.closedByShutdown = some Err.serverClosed ∧
    serveTask ServeEnd.closedByShutdown ≠ none :=
  ⟨rfl, by simp [serveTask, listenAndServe]⟩

/-- C4 amended: the serve task returns the bind/serve error when serving
fails for a reason other than shutdown, and returns the non-nil
`http.ErrServerClosed` when the server is closed by the paired shutdown
task — it never returns nil to the group. -/
theorem serveTask_behavior (e : ServeEnd) :
    serveTask e ≠ none ∧
    serveTask ServeEnd.closedByShutdown = some Err.serverClosed ∧
    (∀ err, serveTask (ServeEnd.ioError err) = some err) := by
  refine ⟨?_, rfl, fun _ => rfl⟩
  cases e <;> simp [serveTask, listenAndServe]

/-- Witness for C4's amended statement at a concrete I/O error. -/
theorem serveTask_behavior_witness :
    serveTask (ServeEnd.ioError (Err.external "bind failure")) ≠ none :=
  (serveTask_behavior (ServeEnd.ioError (Err.external "bind failure"))).1

/-- C5 counterexample: in an online embedded-geth run whose client
construction fails, `runRunCmd` returns the wrapped fatal error — but the
embedded-node task has already been registered and started with the
group at that point, so "no task has been registered or started" is
false. -/
theorem client_init_failure_after_task_start :
    (runRunCmd envClientFail).result =
      some (Err.wrap "cannot initialize ethereum client" (Err.external "dial error")) ∧
    (runRunCmd envClientFail).tasks = [TaskName.startGeth] ∧
    (runRunCmd envClientFail).tasks ≠ [] :=
  ⟨rfl, rfl, by decide⟩

/-- C5 amended: configuration-loading and asserter failures return the
wrapped fatal error with no task registered; a client-construction
failure returns the wrapped fatal error before the serve/shutdown tasks
are registered and before join, but the embedded-node task has already
been registered at that point exactly when remote geth is not in use. -/
theorem fatal_errors_abort_before_join (env : Env) :
    (∀ e, env.loadConfiguration = Except.error e →
      runRunCmd env =
        { result := some (Err.wrap "unable to load configuration" e)
        , tasks := [], clientCreated := false, clientCloses := 0
        , clientOptions := none, server := none, reachedJoin := false }) ∧
    (∀ e cfg, env.loadConfiguration = Except.ok cfg →
      env.newServerAsserter = Except.error e →
      runRunCmd env =
        { result := some (Err.wrap "could not initialize server asserter" e)
        , tasks := [], clientCreated := false, clientCloses := 0
        , clientOptions := none, server := none, reachedJoin := false }) ∧
    (∀ e cfg, env.loadConfiguration = Except.ok cfg →
      env.newServerAsserter = Except.ok () →
      cfg.mode = Mode.online →
      env.newClient = Except.error e →
      (runRunCmd env).result = some (Err.wrap "cannot initialize ethereum client" e) ∧
      (runRunCmd env).reachedJoin = false ∧
      (runRunCmd env).clientCreated = false ∧
      (runRunCmd env).tasks =
        (if cfg.remoteGeth then [] else [TaskName.startGeth])) := by
  obtain ⟨lc, na, nc, jr, sr⟩ := env
  refine ⟨?_, ?_, ?_⟩
  · intro e he
    cases he
    simp [runRunCmd]
  · intro e cfg hc ha
    cases hc
    cases ha
    simp [runRunCmd]
  · intro e cfg hc ha hm hn
    cases hc
    cases ha
    cases hn
    simp [runRunCmd, hm]

/-- Witness for C5's amended statement at the client-failure fixture. -/
theorem fatal_errors_abort_before_join_witness :
    (runRunCmd envClientFail).reachedJoin = false ∧
    (runRunCmd envClientFail).tasks = [TaskName.startGeth] := by
  have h := (fatal_errors_abort_before_join envClientFail).2.2
    (Err.external "dial error") cfgEmbedded rfl rfl rfl rfl
  exact ⟨h.2.1, h.2.2.2.trans (by decide)⟩

/-- C6: whenever `optimism.NewClient` returns a client (online mode), the
deferred `client.Close()` runs exactly once before `runRunCmd` returns,
on every exit path from that point on; when no client is created, it
never runs. -/
theorem client_closed_exactly_once (env : Env) :
    ((runRunCmd env).clientCreated = true → (runRunCmd env).clientCloses = 1) ∧
    ((runRunCmd env).clientCreated = false → (runRunCmd env).clientCloses = 0) := by
  obtain ⟨lc, na, nc, jr, sr⟩ := env
  cases lc with
  | error e => simp [runRunCmd]
  | ok cfg =>
    cases na with
    | error e => simp [runRunCmd]
    | ok u =>
      cases hm : cfg.mode with
      | online =>
        cases nc with
        | error e => simp [runRunCmd, hm]
        | ok v => simp [runRunCmd, runTail, hm]
      | offline => simp [runRunCmd, runTail, hm]

/-- Witness for C6 at the successful remote-geth fixture. -/
theorem client_closed_exactly_once_witness :
    (runRunCmd envRemoteOk).clientCloses = 1 :=
  (client_closed_exactly_once envRemoteOk).1 rfl

/-- C8 counterexample: with an online configuration pointed at a remote
geth endpoint, the embedded-node task is not registered but the remote
client is still constructed — so "the remote client is constructed only
when ... not pointed at a remote-only endpoint" is false. -/
theorem client_constructed_with_remote_geth :
    cfgRemote.remoteGeth = true ∧
    cfgRemote.mode = Mode.online ∧
    (runRunCmd envRemoteOk).clientCreated = true ∧
    TaskName.startGeth ∉ (runRunCmd envRemoteOk).tasks :=
  ⟨rfl, rfl, rfl, by decide⟩

/-- C8 amended: the embedded-node task is registered exactly when the
configuration is online and not remote geth; the remote client is
constructed exactly when the configuration is online (regardless of the
remote-geth flag) and its construction succeeds; in offline mode neither
happens. -/
theorem embedded_node_and_client_conditions (env : Env) (cfg : Configuration)
    (hload : env.loadConfiguration = Except.ok cfg)
    (hass : env.newServerAsserter = Except.ok ()) :
    (TaskName.startGeth ∈ (runRunCmd env).tasks ↔
      (cfg.mode = Mode.online ∧ cfg.remoteGeth = false)) ∧
    ((runRunCmd env).clientCreated = true ↔
      (cfg.mode = Mode.online ∧ env.newClient = Except.ok ())) ∧
    (cfg.mode = Mode.offline →
      TaskName.startGeth ∉ (runRunCmd env).tasks ∧
      (runRunCmd env).clientCreated = false) := by
  obtain ⟨lc, na, nc, jr, sr⟩ := env
  cases hload
  cases hass
  cases hm : cfg.mode with
  | online =>
    cases nc with
    | error e =>
      cases hr : cfg.remoteGeth <;>
        simp [runRunCmd, hm, hr]
    | ok v =>
      cases hr : cfg.remoteGeth <;>
        simp [runRunCmd, runTail, hm, hr]
  | offline =>
    simp [runRunCmd, runTail, hm]

/-- Witness for C8's amended statement at the remote-geth fixture. -/
theorem embedded_node_and_client_conditions_witness :
    (runRunCmd envRemoteOk).clientCreated = true :=
  (embedded_node_and_client_conditions envRemoteOk cfgRemote rfl rfl).2.1.mpr ⟨rfl, rfl⟩

/-- C9: whatever `http.Server` the run constructs has the fixed 5-second
read timeout, the fixed 30-second idle timeout, and the configured
`L2GethHTTPTimeout` as its write timeout — it is exactly `mkServer cfg`. -/
theorem server_timeouts (env : Env) (cfg : Configuration) (s : HTTPServer)
    (hload : env.loadConfiguration = Except.ok cfg)
    (hs : (runRunCmd env).server = some s) :
    s = mkServer cfg ∧
    s.ReadTimeout = 5 * second ∧
    s.IdleTimeout = 30 * second ∧
    s.WriteTimeout = cfg.l2GethHTTPTimeout := by
  obtain ⟨lc, na, nc, jr, sr⟩ := env
  cases hload
  have hsm : s = mkServer cfg := by
    cases na with
    | error e => simp [runRunCmd] at hs
    | ok u =>
      cases hm : cfg.mode with
      | online =>
        cases nc with
        | error e => simp [runRunCmd, hm] at hs
        | ok v =>
          simp [runRunCmd, runTail, hm] at hs
          exact hs.symm
      | offline =>
        simp [runRunCmd, runTail, hm] at hs
        exact hs.symm
  subst hsm
  exact ⟨rfl, rfl, rfl, rfl⟩

/-- Witness for C9 at the remote-geth fixture. -/
theorem server_timeouts_witness :
    (mkServer cfgRemote).ReadTimeout = 5 * second ∧
    (mkServer cfgRemote).WriteTimeout = cfgRemote.l2GethHTTPTimeout :=
  ⟨(server_timeouts envRemoteOk cfgRemote (mkServer cfgRemote) rfl rfl).2.1,
   (server_timeouts envRemoteOk cfgRemote (mkServer cfgRemote) rfl rfl).2.2.2⟩

/-- C7: the recognized production network name yields exactly 6 token
entries including the native wrapped-token (OP) address, and any
unrecognized network name yields exactly the 1-entry table holding that
address only. -/
theorem getSupportedTokens_table_sizes (s : String)
    (h1 : s ≠ MainnetNetwork) (h2 : s ≠ TestnetNetwork) :
    (getSupportedTokens MainnetNetwork).length = 6 ∧
    (OPTokenAddress, true) ∈ getSupportedTokens MainnetNetwork ∧
    getSupportedTokens s = [(OPTokenAddress, true)] ∧
    (getSupportedTokens s).length = 1 := by
  refine ⟨by decide, by decide, ?_, ?_⟩
  · simp [getSupportedTokens, h1, h2]
  · simp [getSupportedTokens, h1, h2]

/-- Witness for C7 at a concrete unrecognized network name. -/
theorem getSupportedTokens_table_sizes_witness :
    getSupportedTokens "unknown" = [(OPTokenAddress, true)] :=
  (getSupportedTokens_table_sizes "unknown" (by decide) (by decide)).2.2.1

/-- C10: `getSupportedTokens` is total and deterministic in the network
name; in every returned table each present address maps to `true`, and
every returned table contains the native wrapped-token (OP) address. -/
theorem getSupportedTokens_total (s : String) :
    (∀ p ∈ getSupportedTokens s, p.2 = true) ∧
    (OPTokenAddress, true) ∈ getSupportedTokens s := by
  unfold getSupportedTokens
  split
  · exact ⟨by decide, by decide⟩
  · split
    · exact ⟨by decide, by decide⟩
    · exact ⟨by decide, by decide⟩

/-- Witness for C10 at the testnet network name. -/
theorem getSupportedTokens_total_witness :
    (OPTokenAddress, true) ∈ getSupportedTokens TestnetNetwork :=
  (getSupportedTokens_total TestnetNetwork).2

end OptimismRosetta
